import Mathlib

/-!
Verification of the request-dispatch/retry/error-classification engine in
`src/action.py` (`make_request`, lines 41-152).

The engine is embedded as a state machine: `MState` records the arguments of
the in-flight `make_request` invocation together with `retry_count`
(line 91), `step` transcribes one iteration of the `while True` loop
(lines 92-152), and `run` iterates `step` with explicit fuel so that the
unbounded redirect recursion (lines 146-151) is representable; `.diverge`
marks fuel exhaustion, i.e. a run that has not terminated within the given
number of dispatches.  The transport (the `urllib` opener, an external
collaborator) is modelled as a function from the dispatch index to a raw
outcome, delivered either as a response object (the `try` path) or as an
`HTTPError` carrying an optional status (the `except` path, lines 100-142).

Besides the result, `run` records the request transmitted at every dispatch
(`sends`), every argument passed to `sleep` in seconds (`sleeps`), and the
final value of the caller's headers dictionary (`finalHeaders`), which the
source mutates in place at line 71.
-/

namespace ActionPy

/-- Byte strings (Python `bytes`) as lists of byte values. -/
abbrev Bytes := List Nat

/-- A Python `dict[str, str]` in insertion order.  The engine only ever adds
a key that is absent (line 71), so keys stay unique and association-list
lookup matches dict lookup. -/
abbrev Headers := List (String × String)

/-- Python `key in dict`: exact string-key membership (line 70). -/
def hdrHasKey (h : Headers) (k : String) : Bool :=
  h.any (fun p => p.1 == k)

/-- Python `dict[key]` as an `Option` (line 147 raises `KeyError` on `none`). -/
def hdrGet (h : Headers) (k : String) : Option String :=
  (h.find? (fun p => p.1 == k)).map Prod.snd

/-- Lines 70-71: if the exact key `"Content-Type"` is absent, insert the
default value; a Python dict insert of a fresh key appends in order. -/
def injectCT (h : Headers) : Headers :=
  if hdrHasKey h "Content-Type" = true then h
  else h ++ [("Content-Type", "application/json; charset=utf8")]

/-- One raw outcome of `opener.open(request)`: either a response object
(status, headers dict, body) from the `try` path, or a `urllib.error.HTTPError`
with an optional status, a body from `e.read()`, and its `str` rendering
(used in the f-string at line 105). -/
inductive RawOutcome where
  | resp (status : Nat) (headers : Headers) (body : Bytes)
  | herr (status : Option Nat) (body : Bytes) (estr : String)
deriving DecidableEq

/-- The transport: the outcome the opener produces for the i-th physical
dispatch of the whole call chain. -/
abbrev Transport := Nat → RawOutcome

/-- Which `raise HttpError` site of `make_request` produced an error:
line 104 and line 138 (the spec's UnknownError classification), line 114
(RetriesExceeded), line 130 (the spec's PermanentClientError). -/
inductive ErrKind where
  | unknownError
  | retriesExceeded
  | permanentClient
deriving DecidableEq

/-- The `HttpError` exception of lines 18-29: message, optional status
code, raw body, tagged with the raise site that produced it. -/
structure HttpErrorV where
  kind : ErrKind
  msg : String
  status_code : Option Nat
  body : Bytes
deriving DecidableEq

/-- The `HttpResponse` dataclass of lines 32-38. -/
structure HttpResponse where
  status_code : Nat
  headers : Headers
  body : Bytes
deriving DecidableEq

/-- How a call to `make_request` can end: a returned `HttpResponse`, a
raised `HttpError`, a raised Python `KeyError` (line 147 when the
`Location` key is missing), or no termination within the supplied fuel. -/
inductive Result where
  | ok (r : HttpResponse)
  | raised (e : HttpErrorV)
  | keyError (k : String)
  | diverge
deriving DecidableEq

/-- Whether a result is a raised `HttpError`. -/
def Result.isRaised : Result → Bool
  | .raised _ => true
  | _ => false

/-- One transmitted physical request: the `urllib.request.Request` data of
lines 80-85 together with the retry budget and SSL-compatibility flag of
the `make_request` invocation that sent it (lines 73-78, 91). -/
structure SentRequest where
  url : String
  data : Option Bytes
  headers : Headers
  method : Option String
  num_retries : Nat
  ssl_compat_mode : Bool
deriving DecidableEq

/-- The state of the in-flight `make_request` invocation: its arguments
(after the header normalisation of lines 67-71) plus `retry_count`. -/
structure MState where
  url : String
  data : Option Bytes
  headers : Headers
  method : Option String
  num_retries : Nat
  retry_count : Nat
  ssl_compat_mode : Bool
deriving DecidableEq

/-- The request transmitted from a given state. -/
def specOf (s : MState) : SentRequest :=
  ⟨s.url, s.data, s.headers, s.method, s.num_retries, s.ssl_compat_mode⟩

/-- Entry of `make_request` (lines 67-71): a missing headers argument
becomes `{}`, then the `Content-Type` default is injected. -/
def initState (url : String) (data : Option Bytes) (headers0 : Option Headers)
    (method : Option String) (num_retries : Nat) (ssl_compat_mode : Bool) : MState :=
  let base := match headers0 with
    | none => ([] : Headers)
    | some h => h
  ⟨url, data, injectCT base, method, num_retries, 0, ssl_compat_mode⟩

/-- Outcome of one loop iteration: continue with a successor state (and the
seconds slept, if the iteration slept), or halt with a final result. -/
inductive StepRes where
  | next (s : MState) (sleepSec : Option Nat)
  | halt (r : Result)
deriving DecidableEq

/-- One iteration of the `while True` loop (lines 92-152) in state `s` on
raw outcome `o`:
* `HTTPError` with `status is None` (lines 103-108): raise the
  unknown-error `HttpError`.
* status `429` or in `[500,600)` (lines 110-123): increment `retry_count`;
  if it now exceeds `num_retries` raise "Retries Exceeded", else sleep
  `2**retry_count * 60` seconds and loop.
* status in `[400,500)` (lines 124-134): raise `HTTP Error {status}`,
  appending the requested url when the status is 404.
* any other `HTTPError` status (lines 135-142): raise the unknown-error
  `HttpError` carrying the status.
* a response object with status in `[300,400)` (lines 144-151): re-enter
  `make_request` at the `Location` url with the same `data`, `headers` and
  `method` but the defaulted `num_retries = 3` and `ssl_compat_mode = False`,
  re-running the entry normalisation of lines 67-71; a missing `Location`
  key raises Python `KeyError`.
* any other response object (line 152): return it. -/
def step (s : MState) (o : RawOutcome) : StepRes :=
  match o with
  | .herr none body estr =>
      .halt (.raised ⟨.unknownError, "Unknown HTTP error: " ++ estr, none, body⟩)
  | .herr (some st) body _ =>
      if st = 429 ∨ (500 ≤ st ∧ st < 600) then
        if s.num_retries < s.retry_count + 1 then
          .halt (.raised ⟨.retriesExceeded, "Retries Exceeded", some st, body⟩)
        else
          .next { s with retry_count := s.retry_count + 1 }
            (some (2 ^ (s.retry_count + 1) * 60))
      else if 400 ≤ st ∧ st < 500 then
        .halt (.raised ⟨.permanentClient,
          (if st = 404 then "HTTP Error " ++ toString st ++ " " ++ s.url
           else "HTTP Error " ++ toString st), some st, body⟩)
      else
        .halt (.raised ⟨.unknownError, "Unknown HTTP Error " ++ toString st, some st, body⟩)
  | .resp st hs body =>
      if 300 ≤ st ∧ st < 400 then
        match hdrGet hs "Location" with
        | some loc =>
            .next ⟨loc, s.data, injectCT s.headers, s.method, 3, 0, false⟩ none
        | none => .halt (.keyError "Location")
      else
        .halt (.ok ⟨st, hs, body⟩)

/-- What a run of the engine produced: the final result, the transmitted
request of every physical dispatch in order, every `sleep` argument in
seconds in order, and the final value of the (shared, mutated in place)
headers dictionary. -/
structure RunOut where
  result : Result
  sends : List SentRequest
  sleeps : List Nat
  finalHeaders : Headers
deriving DecidableEq

/-- Iterate `step` against transport `t`, dispatching the requests at
indices `k`, `k+1`, ...; `fuel` bounds the number of dispatches, and a run
that needs more reports `.diverge` (the source loops/recurses without any
such bound). -/
def run (t : Transport) : Nat → Nat → MState → RunOut
  | 0, _, s => ⟨.diverge, [], [], s.headers⟩
  | fuel + 1, k, s =>
      match step s (t k) with
      | .halt r => ⟨r, [specOf s], [], s.headers⟩
      | .next s2 w =>
          let rest := run t fuel (k + 1) s2
          ⟨rest.result, specOf s :: rest.sends,
            (match w with
             | none => rest.sleeps
             | some d => d :: rest.sleeps),
            rest.finalHeaders⟩

/-- `make_request` (lines 41-152): normalise the arguments (lines 67-71)
and drive the dispatch loop from dispatch index 0. -/
def make_request (t : Transport) (fuel : Nat) (url : String) (data : Option Bytes)
    (headers0 : Option Headers) (method : Option String) (num_retries : Nat)
    (ssl_compat_mode : Bool) : RunOut :=
  run t fuel 0 (initState url data headers0 method num_retries ssl_compat_mode)

/-- Injecting the default when the key is already present is a no-op
(line 70 guards the insert at line 71). -/
theorem injectCT_of_has {h : Headers} (hct : hdrHasKey h "Content-Type" = true) :
    injectCT h = h := by
  simp [injectCT, hct]

/-- After the entry normalisation the `Content-Type` key is always present. -/
theorem hdrHasKey_injectCT (h : Headers) :
    hdrHasKey (injectCT h) "Content-Type" = true := by
  unfold injectCT
  by_cases hct : hdrHasKey h "Content-Type" = true
  · rw [if_pos hct]; exact hct
  · rw [if_neg hct]
    simp [hdrHasKey, List.any_append]

/-- Line 103-108: an `HTTPError` whose status is `None` halts at once with
the unknown-error `HttpError`. -/
theorem step_transport_failure (s : MState) (bd : Bytes) (es : String) :
    step s (.herr none bd es) =
      .halt (.raised ⟨.unknownError, "Unknown HTTP error: " ++ es, none, bd⟩) := rfl

/-- Lines 110-123, budget not yet exhausted: increment the retry counter
and sleep `2**retry_count * 60` seconds. -/
theorem step_retry (st : Nat) (s : MState) (bd : Bytes) (es : String)
    (hst : st = 429 ∨ (500 ≤ st ∧ st < 600))
    (hbudget : s.retry_count + 1 ≤ s.num_retries) :
    step s (.herr (some st) bd es) =
      .next { s with retry_count := s.retry_count + 1 }
        (some (2 ^ (s.retry_count + 1) * 60)) := by
  simp [step, hst, Nat.not_lt.mpr hbudget]

/-- Lines 113-118: the incremented retry counter exceeds the budget, so the
loop raises "Retries Exceeded" carrying the last status and body. -/
theorem step_retries_exceeded (st : Nat) (s : MState) (bd : Bytes) (es : String)
    (hst : st = 429 ∨ (500 ≤ st ∧ st < 600))
    (hbudget : s.num_retries < s.retry_count + 1) :
    step s (.herr (some st) bd es) =
      .halt (.raised ⟨.retriesExceeded, "Retries Exceeded", some st, bd⟩) := by
  simp [step, hst, hbudget]

/-- Lines 124-134: an unrecoverable client error halts at once. -/
theorem step_client_error (st : Nat) (s : MState) (bd : Bytes) (es : String)
    (hst : ¬(st = 429 ∨ (500 ≤ st ∧ st < 600))) (h4 : 400 ≤ st ∧ st < 500) :
    step s (.herr (some st) bd es) =
      .halt (.raised ⟨.permanentClient,
        (if st = 404 then "HTTP Error " ++ toString st ++ " " ++ s.url
         else "HTTP Error " ++ toString st), some st, bd⟩) := by
  simp [step, hst, h4]

/-- Lines 135-142: any other `HTTPError` status halts with the catch-all
unknown-error `HttpError` carrying the raw status. -/
theorem step_unknown_status (st : Nat) (s : MState) (bd : Bytes) (es : String)
    (hst : ¬(st = 429 ∨ (500 ≤ st ∧ st < 600))) (h4 : ¬(400 ≤ st ∧ st < 500)) :
    step s (.herr (some st) bd es) =
      .halt (.raised ⟨.unknownError, "Unknown HTTP Error " ++ toString st, some st, bd⟩) := by
  simp [step, hst, h4]

/-- Lines 144-151: a 3xx response with a `Location` header hops to the new
url, keeping `data`, `headers` and `method` and re-defaulting
`num_retries` to 3 and `ssl_compat_mode` to `False`. -/
theorem step_redirect (st : Nat) (s : MState) (hs : Headers) (bd : Bytes) (loc : String)
    (h3 : 300 ≤ st ∧ st < 400) (hloc : hdrGet hs "Location" = some loc) :
    step s (.resp st hs bd) =
      .next ⟨loc, s.data, injectCT s.headers, s.method, 3, 0, false⟩ none := by
  simp [step, h3, hloc]

/-- Line 147 with no `Location` key: Python raises `KeyError`. -/
theorem step_no_location (st : Nat) (s : MState) (hs : Headers) (bd : Bytes)
    (h3 : 300 ≤ st ∧ st < 400) (hloc : hdrGet hs "Location" = none) :
    step s (.resp st hs bd) = .halt (.keyError "Location") := by
  simp [step, h3, hloc]

/-- Line 152: any non-3xx response object is returned as-is. -/
theorem step_return (st : Nat) (s : MState) (hs : Headers) (bd : Bytes)
    (h3 : ¬(300 ≤ st ∧ st < 400)) :
    step s (.resp st hs bd) = .halt (.ok ⟨st, hs, bd⟩) := by
  simp [step, h3]

/-- Inversion: the loop only continues by a retry (on a retryable
`HTTPError` within budget) or by a redirect hop (on a 3xx response object
carrying a `Location` header). -/
theorem step_next_inv {s s2 : MState} {o : RawOutcome} {w : Option Nat}
    (h : step s o = .next s2 w) :
    (∃ st bd es, o = .herr (some st) bd es ∧ (st = 429 ∨ (500 ≤ st ∧ st < 600)) ∧
       s.retry_count + 1 ≤ s.num_retries ∧
       s2 = { s with retry_count := s.retry_count + 1 } ∧
       w = some (2 ^ (s.retry_count + 1) * 60)) ∨
    (∃ st hs bd loc, o = .resp st hs bd ∧ 300 ≤ st ∧ st < 400 ∧
       hdrGet hs "Location" = some loc ∧
       s2 = ⟨loc, s.data, injectCT s.headers, s.method, 3, 0, false⟩ ∧ w = none) := by
  cases o with
  | herr ost bd es =>
    cases ost with
    | none => simp [step] at h
    | some st =>
      by_cases hst : st = 429 ∨ (500 ≤ st ∧ st < 600)
      · by_cases hb : s.num_retries < s.retry_count + 1
        · rw [step_retries_exceeded st s bd es hst hb] at h
          exact absurd h (by simp)
        · rw [step_retry st s bd es hst (Nat.not_lt.mp hb)] at h
          obtain ⟨h1, h2⟩ := StepRes.next.inj h
          exact Or.inl ⟨st, bd, es, rfl, hst, Nat.not_lt.mp hb, h1.symm, h2.symm⟩
      · by_cases h4 : 400 ≤ st ∧ st < 500
        · rw [step_client_error st s bd es hst h4] at h
          exact absurd h (by simp)
        · rw [step_unknown_status st s bd es hst h4] at h
          exact absurd h (by simp)
  | resp st hs bd =>
    by_cases h3 : 300 ≤ st ∧ st < 400
    · cases hloc : hdrGet hs "Location" with
      | none =>
        rw [step_no_location st s hs bd h3 hloc] at h
        exact absurd h (by simp)
      | some loc =>
        rw [step_redirect st s hs bd loc h3 hloc] at h
        obtain ⟨h1, h2⟩ := StepRes.next.inj h
        exact Or.inr ⟨st, hs, bd, loc, rfl, h3.1, h3.2, hloc, h1.symm, h2.symm⟩
    · rw [step_return st s hs bd h3] at h
      exact absurd h (by simp)

/-- A run with no fuel records nothing. -/
theorem run_zero (t : Transport) (k : Nat) (s : MState) :
    run t 0 k s = ⟨.diverge, [], [], s.headers⟩ := rfl

/-- A run with fuel transmits the current state's request first. -/
theorem run_sends_zero (t : Transport) {fuel : Nat} (k : Nat) (s : MState)
    (hfuel : 1 ≤ fuel) :
    (run t fuel k s).sends[0]? = some (specOf s) := by
  obtain ⟨f, rfl⟩ : ∃ f, fuel = f + 1 := ⟨fuel - 1, by omega⟩
  rw [run]
  cases step s (t k) <;> simp

/-- Running through `d` consecutive retryable failures within budget: the
same request is re-transmitted `d` times, the i-th sleep (0-based) lasts
`2^(retry_count+1+i) * 60` seconds, and the run continues at dispatch
`k + d` with the retry counter advanced by `d`. -/
theorem run_skip (t : Transport) :
    ∀ (d f k : Nat) (s : MState),
      (∀ j, j < d → ∃ st bd es, t (k + j) = .herr (some st) bd es ∧
        (st = 429 ∨ (500 ≤ st ∧ st < 600))) →
      s.retry_count + d ≤ s.num_retries →
      run t (d + f) k s =
        ⟨(run t f (k + d) { s with retry_count := s.retry_count + d }).result,
         List.replicate d (specOf s) ++
           (run t f (k + d) { s with retry_count := s.retry_count + d }).sends,
         (List.range d).map (fun i => 2 ^ (s.retry_count + 1 + i) * 60) ++
           (run t f (k + d) { s with retry_count := s.retry_count + d }).sleeps,
         (run t f (k + d) { s with retry_count := s.retry_count + d }).finalHeaders⟩ := by
  intro d
  induction d with
  | zero =>
    intro f k s _ _
    simp only [Nat.zero_add, Nat.add_zero, List.replicate_zero, List.range_zero,
      List.map_nil, List.nil_append]
  | succ d ih =>
    intro f k s hret hbudget
    obtain ⟨st, bd, es, hk, hst⟩ := hret 0 (Nat.succ_pos d)
    have hdisp : t k = .herr (some st) bd es := by simpa using hk
    have hstep := step_retry st s bd es hst (by omega)
    have hfe : d + 1 + f = (d + f) + 1 := by omega
    rw [hfe, run, hdisp, hstep]
    have hrec := ih f (k + 1) { s with retry_count := s.retry_count + 1 }
      (fun j hj => by
        have := hret (j + 1) (by omega)
        simpa [Nat.add_assoc, Nat.add_comm 1 j] using this)
      (by simpa using by omega)
    simp only [hrec]
    have hk1 : k + 1 + d = k + (d + 1) := by omega
    have hrc1 : s.retry_count + 1 + d = s.retry_count + (d + 1) := by omega
    simp only [hk1, hrc1, specOf, RunOut.mk.injEq]
    refine ⟨trivial, ?_, ?_, trivial⟩
    · rw [List.replicate_succ]
      rfl
    · rw [List.range_succ_eq_map, List.map_cons, List.map_map]
      have harg : ((fun i => 2 ^ (s.retry_count + 1 + i) * 60) ∘ Nat.succ) =
          fun i => 2 ^ (s.retry_count + 1 + 1 + i) * 60 := by
        funext i
        have : s.retry_count + 1 + Nat.succ i = s.retry_count + 1 + 1 + i := by omega
        simp [Function.comp, this]
      rw [harg]
      simp

/-- The caller's headers dictionary is one shared object: once
`Content-Type` is present, no later dispatch or hop changes it, every
transmitted request carries that same mapping, and the run reports it as
the final value of the dictionary. -/
theorem run_headers_inv (t : Transport) :
    ∀ (fuel k : Nat) (s : MState), hdrHasKey s.headers "Content-Type" = true →
      (run t fuel k s).finalHeaders = s.headers ∧
      ∀ sr ∈ (run t fuel k s).sends, sr.headers = s.headers := by
  intro fuel
  induction fuel with
  | zero =>
    intro k s _
    simp [run_zero]
  | succ n ih =>
    intro k s hct
    rw [run]
    cases hstep : step s (t k) with
    | halt r => simp [specOf]
    | next s2 w =>
      have hs2 : s2.headers = s.headers := by
        rcases step_next_inv hstep with
          ⟨st, bd, es, _, _, _, hs2eq, _⟩ | ⟨st, hs, bd, loc, _, _, _, _, hs2eq, _⟩
        · rw [hs2eq]
        · rw [hs2eq]
          exact injectCT_of_has hct
      have := ih (k + 1) s2 (by rw [hs2]; exact hct)
      simp only [List.mem_cons]
      constructor
      · rw [this.1, hs2]
      · rintro sr (rfl | hmem)
        · rfl
        · rw [this.2 sr hmem, hs2]

/-- Frame condition of a redirect hop, over a whole run: whenever the
outcome of dispatch `k + i` is a 3xx response carrying `Location: loc` and
another dispatch follows, that next transmitted request is the previous
one with only the url replaced by `loc` — same body and method, the same
headers mapping — and with the defaulted retry budget `3` and
`ssl_compat_mode = false`. -/
theorem run_redirect_hop (t : Transport) :
    ∀ (fuel k : Nat) (s : MState) (i st : Nat) (hs2 : Headers) (bd : Bytes) (loc : String),
      hdrHasKey s.headers "Content-Type" = true →
      t (k + i) = .resp st hs2 bd → 300 ≤ st → st < 400 →
      hdrGet hs2 "Location" = some loc →
      i + 1 < (run t fuel k s).sends.length →
      ∃ prev, (run t fuel k s).sends[i]? = some prev ∧
        (run t fuel k s).sends[i + 1]? =
          some ⟨loc, prev.data, prev.headers, prev.method, 3, false⟩ := by
  intro fuel
  induction fuel with
  | zero =>
    intro k s i st hs2 bd loc _ _ _ _ _ hlen
    simp [run_zero] at hlen
  | succ n ih =>
    intro k s i st hs2 bd loc hct ht h3l h3u hloc hlen
    rw [run] at hlen ⊢
    cases hstep : step s (t k) with
    | halt r =>
      rw [hstep] at hlen
      simp at hlen
    | next s2 w =>
      rw [hstep] at hlen
      simp only [List.length_cons] at hlen
      have hct2 : hdrHasKey s2.headers "Content-Type" = true := by
        rcases step_next_inv hstep with
          ⟨_, _, _, _, _, _, hs2eq, _⟩ | ⟨_, _, _, _, _, _, _, _, hs2eq, _⟩
        · rw [hs2eq]; exact hct
        · rw [hs2eq]; exact hdrHasKey_injectCT s.headers
      cases i with
      | zero =>
        have htk : t k = .resp st hs2 bd := by simpa using ht
        rw [htk] at hstep
        rcases step_next_inv hstep with
          ⟨st', bd', es', ho, _, _, _, _⟩ | ⟨st', hs', bd', loc', ho, _, _, hloc', hs2eq, _⟩
        · exact absurd ho (by simp)
        · obtain ⟨heq1, heq2, heq3⟩ := RawOutcome.resp.inj ho
          subst heq1; subst heq2; subst heq3
          have hlocloc : loc' = loc := by
            rw [hloc'] at hloc
            exact Option.some.inj hloc
          have hrestlen : 0 < (run t n (k + 1) s2).sends.length := by omega
          have hn1 : 1 ≤ n := by
            by_contra hn0
            have : n = 0 := by omega
            subst this
            simp [run_zero] at hrestlen
          have hhead := run_sends_zero t (k + 1) s2 hn1
          refine ⟨specOf s, by simp, ?_⟩
          simp only [List.getElem?_cons_succ]
          rw [hhead, hs2eq, hlocloc]
          have : injectCT s.headers = s.headers := injectCT_of_has hct
          simp [specOf, this]
      | succ i' =>
        have ht' : t ((k + 1) + i') = .resp st hs2 bd := by
          have : k + 1 + i' = k + (i' + 1) := by omega
          rw [this]; exact ht
        have := ih (k + 1) s2 i' st hs2 bd loc hct2 ht' h3l h3u hloc (by omega)
        obtain ⟨prev, hp1, hp2⟩ := this
        exact ⟨prev, by simpa using hp1, by simpa using hp2⟩

/-- Claim C2: for every retry budget `n ≥ 0` and a transport that reports a
retryable status (429 or 5xx) as an HTTP error on every attempt,
`make_request` terminates (given fuel for the `n + 1` dispatches) with the
"Retries Exceeded" `HttpError` after exactly `n` retries — `n + 1`
transmitted requests and `n` backoff sleeps — and the error carries the
status code and body of the last observed response. -/
theorem claim2_retries_exhausted (t : Transport) (st : Nat → Nat) (bd : Nat → Bytes)
    (es : Nat → String) (url : String) (data : Option Bytes) (headers0 : Option Headers)
    (method : Option String) (n : Nat) (ssl : Bool) (fuel : Nat)
    (hfuel : n + 1 ≤ fuel)
    (ht : ∀ j, t j = .herr (some (st j)) (bd j) (es j))
    (hr : ∀ j, st j = 429 ∨ (500 ≤ st j ∧ st j < 600)) :
    (make_request t fuel url data headers0 method n ssl).result =
      .raised ⟨.retriesExceeded, "Retries Exceeded", some (st n), bd n⟩ ∧
    (make_request t fuel url data headers0 method n ssl).sends.length = n + 1 ∧
    (make_request t fuel url data headers0 method n ssl).sleeps =
      (List.range n).map (fun i => 2 ^ (i + 1) * 60) := by
  obtain ⟨m, hm⟩ := Nat.le.dest hfuel
  have hfe : fuel = n + (m + 1) := by omega
  subst hfe
  unfold make_request
  have hrc : (initState url data headers0 method n ssl).retry_count = 0 := rfl
  have hnum : (initState url data headers0 method n ssl).num_retries = n := rfl
  have hskip := run_skip t n (m + 1) 0 (initState url data headers0 method n ssl)
    (fun j _ => ⟨st j, bd j, es j, by simpa using ht j, hr j⟩)
    (by rw [hrc, hnum]; omega)
  rw [hskip]
  have hdisp : t (0 + n) = .herr (some (st n)) (bd n) (es n) := by simpa using ht n
  have hhalt := step_retries_exceeded (st n)
    { initState url data headers0 method n ssl with
        retry_count := (initState url data headers0 method n ssl).retry_count + n }
    (bd n) (es n) (hr n) (by show n < 0 + n + 1; omega)
  rw [run, hdisp, hhalt]
  refine ⟨rfl, by simp, ?_⟩
  show (List.range n).map
      (fun i => 2 ^ ((initState url data headers0 method n ssl).retry_count + 1 + i) * 60) ++
        [] = _
  rw [List.append_nil]
  congr 1
  funext i
  rw [hrc]
  have : 0 + 1 + i = i + 1 := by omega
  rw [this]

/-- Witness for C2: budget 3 against a transport that always reports 429
with body `[7]`; four requests go out, three sleeps of 2, 4 and 8 minutes
are taken, and the run fails with "Retries Exceeded" carrying 429/[7]. -/
theorem claim2_witness :
    3 + 1 ≤ 6 ∧
    ((make_request (fun _ => .herr (some 429) [7] "boom") 6 "https://x" none none none 3
        false).result = .raised ⟨.retriesExceeded, "Retries Exceeded", some 429, [7]⟩ ∧
     (make_request (fun _ => .herr (some 429) [7] "boom") 6 "https://x" none none none 3
        false).sends.length = 3 + 1 ∧
     (make_request (fun _ => .herr (some 429) [7] "boom") 6 "https://x" none none none 3
        false).sleeps = (List.range 3).map (fun i => 2 ^ (i + 1) * 60)) :=
  ⟨by decide,
   claim2_retries_exhausted (fun _ => .herr (some 429) [7] "boom") (fun _ => 429)
     (fun _ => [7]) (fun _ => "boom") "https://x" none none none 3 false 6 (by decide)
     (fun _ => rfl) (fun _ => Or.inl rfl)⟩

/-- Claim C3: a transport-level failure carrying no status code halts the
very first dispatch — no retry, no sleep — with a single raised
unknown-error `HttpError` (the classification of line 104), never an
unclassified exception and never silently swallowed. -/
theorem claim3_transport_failure (t : Transport) (bd : Bytes) (es : String) (url : String)
    (data : Option Bytes) (headers0 : Option Headers) (method : Option String)
    (n : Nat) (ssl : Bool) (fuel : Nat)
    (hfuel : 1 ≤ fuel) (ht : t 0 = .herr none bd es) :
    (make_request t fuel url data headers0 method n ssl).result =
      .raised ⟨.unknownError, "Unknown HTTP error: " ++ es, none, bd⟩ ∧
    (make_request t fuel url data headers0 method n ssl).sends.length = 1 ∧
    (make_request t fuel url data headers0 method n ssl).sleeps = [] := by
  obtain ⟨f, rfl⟩ : ∃ f, fuel = f + 1 := ⟨fuel - 1, by omega⟩
  unfold make_request
  rw [run, ht, step_transport_failure]
  exact ⟨rfl, rfl, rfl⟩

/-- Witness for C3: a connection-level failure (no status) surfaces
immediately as the unknown-error `HttpError`. -/
theorem claim3_witness :
    1 ≤ 1 ∧
    ((make_request (fun _ => .herr none [5] "connection refused") 1 "https://x" none none
        none 3 false).result =
      .raised ⟨.unknownError, "Unknown HTTP error: " ++ "connection refused", none, [5]⟩ ∧
     (make_request (fun _ => .herr none [5] "connection refused") 1 "https://x" none none
        none 3 false).sends.length = 1 ∧
     (make_request (fun _ => .herr none [5] "connection refused") 1 "https://x" none none
        none 3 false).sleeps = []) :=
  ⟨by decide,
   claim3_transport_failure (fun _ => .herr none [5] "connection refused") [5]
     "connection refused" "https://x" none none none 3 false 1 (by decide) rfl⟩

/-- Claim C6: `d` consecutive retryable failures followed by a 2xx response
produce exactly the sleeps `2^1*60, 2^2*60, ..., 2^d*60` seconds (i.e.
`2^k` minutes before the k-th retry, `sleep(2**retry_count * 60)` at
line 120-122) and then the successful response is returned.  With `d = 2`
and statuses 503, 503, 200 this is the spec's retry-then-success scenario. -/
theorem claim6_backoff_schedule (t : Transport) (rs : Nat) (rh : Headers) (rb : Bytes)
    (url : String) (data : Option Bytes) (headers0 : Option Headers)
    (method : Option String) (ssl : Bool) (d n fuel : Nat)
    (hd : d ≤ n) (hfuel : d + 1 ≤ fuel)
    (ht : ∀ j, j < d → ∃ st bd es, t j = .herr (some st) bd es ∧
      (st = 429 ∨ (500 ≤ st ∧ st < 600)))
    (hresp : t d = .resp rs rh rb) (h2l : 200 ≤ rs) (h2u : rs < 300) :
    (make_request t fuel url data headers0 method n ssl).result = .ok ⟨rs, rh, rb⟩ ∧
    (make_request t fuel url data headers0 method n ssl).sleeps =
      (List.range d).map (fun i => 2 ^ (i + 1) * 60) := by
  obtain ⟨m, hm⟩ := Nat.le.dest hfuel
  have hfe : fuel = d + (m + 1) := by omega
  subst hfe
  unfold make_request
  have hrc : (initState url data headers0 method n ssl).retry_count = 0 := rfl
  have hnum : (initState url data headers0 method n ssl).num_retries = n := rfl
  have hskip := run_skip t d (m + 1) 0 (initState url data headers0 method n ssl)
    (fun j hj => by simpa using ht j hj)
    (by rw [hrc, hnum]; omega)
  rw [hskip]
  have hdisp : t (0 + d) = .resp rs rh rb := by simpa using hresp
  have hhalt := step_return rs
    { initState url data headers0 method n ssl with
        retry_count := (initState url data headers0 method n ssl).retry_count + d }
    rh rb (by omega)
  rw [run, hdisp, hhalt]
  refine ⟨rfl, ?_⟩
  show (List.range d).map
      (fun i => 2 ^ ((initState url data headers0 method n ssl).retry_count + 1 + i) * 60) ++
        [] = _
  rw [List.append_nil]
  congr 1
  funext i
  rw [hrc]
  have : 0 + 1 + i = i + 1 := by omega
  rw [this]

/-- Witness for C6: 503 twice then 200 yields sleeps of `2^1*60` and
`2^2*60` seconds (2 then 4 minutes) and returns the 200 response. -/
theorem claim6_witness :
    2 ≤ 3 ∧ 2 + 1 ≤ 3 ∧
    ((make_request
        (fun j => match j with
          | 0 => .herr (some 503) [9] "u"
          | 1 => .herr (some 503) [9] "u"
          | _ => .resp 200 [("h", "v")] [3]) 3 "https://x" none none none 3
        false).result = .ok ⟨200, [("h", "v")], [3]⟩ ∧
     (make_request
        (fun j => match j with
          | 0 => .herr (some 503) [9] "u"
          | 1 => .herr (some 503) [9] "u"
          | _ => .resp 200 [("h", "v")] [3]) 3 "https://x" none none none 3
        false).sleeps = (List.range 2).map (fun i => 2 ^ (i + 1) * 60)) := by
  refine ⟨by decide, by decide, ?_⟩
  exact claim6_backoff_schedule
    (fun j => match j with
      | 0 => .herr (some 503) [9] "u"
      | 1 => .herr (some 503) [9] "u"
      | _ => .resp 200 [("h", "v")] [3])
    200 [("h", "v")] [3] "https://x" none none none false 2 3 3 (by decide) (by decide)
    (fun j hj => by interval_cases j <;> exact ⟨503, [9], "u", rfl, by omega⟩)
    rfl (by decide) (by decide)

/-- Claim C7: a 404 reported by the transport halts the first dispatch —
zero retries, zero sleeps — with the client-error `HttpError` of
lines 124-134 whose message is `"HTTP Error 404 " ++ url`, so the message
contains the requested url verbatim. -/
theorem claim7_notfound_message (t : Transport) (bd : Bytes) (es : String) (url : String)
    (data : Option Bytes) (headers0 : Option Headers) (method : Option String)
    (n : Nat) (ssl : Bool) (fuel : Nat)
    (hfuel : 1 ≤ fuel) (ht : t 0 = .herr (some 404) bd es) :
    (make_request t fuel url data headers0 method n ssl).result =
      .raised ⟨.permanentClient, "HTTP Error 404 " ++ url, some 404, bd⟩ ∧
    (∃ p, "HTTP Error 404 " ++ url = p ++ url) ∧
    (make_request t fuel url data headers0 method n ssl).sends.length = 1 ∧
    (make_request t fuel url data headers0 method n ssl).sleeps = [] := by
  obtain ⟨f, rfl⟩ : ∃ f, fuel = f + 1 := ⟨fuel - 1, by omega⟩
  unfold make_request
  rw [run, ht, step_client_error 404 _ bd es (by omega) (by omega)]
  exact ⟨rfl, ⟨"HTTP Error 404 ", rfl⟩, rfl, rfl⟩

/-- Witness for C7: a 404 on `https://host/missing` fails at once and the
message embeds that url. -/
theorem claim7_witness :
    1 ≤ 2 ∧
    ((make_request (fun _ => .herr (some 404) [1, 2] "nf") 2 "https://host/missing" none
        none none 3 false).result =
      .raised ⟨.permanentClient, "HTTP Error 404 " ++ "https://host/missing", some 404,
        [1, 2]⟩ ∧
     (∃ p, "HTTP Error 404 " ++ "https://host/missing" = p ++ "https://host/missing") ∧
     (make_request (fun _ => .herr (some 404) [1, 2] "nf") 2 "https://host/missing" none
        none none 3 false).sends.length = 1 ∧
     (make_request (fun _ => .herr (some 404) [1, 2] "nf") 2 "https://host/missing" none
        none none 3 false).sleeps = []) :=
  ⟨by decide,
   claim7_notfound_message (fun _ => .herr (some 404) [1, 2] "nf") [1, 2] "nf"
     "https://host/missing" none none none 3 false 2 (by decide) rfl⟩

/-- Helper for C9: against a server that answers every dispatch with
`302 Location: https://b`, every unit of fuel is consumed by one more
dispatch and the run never reaches a terminal result. -/
theorem run_redirect_forever :
    ∀ (fuel k : Nat) (s : MState),
      (run (fun _ => .resp 302 [("Location", "https://b")] []) fuel k s).result =
        .diverge ∧
      (run (fun _ => .resp 302 [("Location", "https://b")] []) fuel k s).sends.length =
        fuel := by
  intro fuel
  induction fuel with
  | zero => intro k s; simp [run_zero]
  | succ f ih =>
    intro k s
    rw [run, step_redirect 302 s [("Location", "https://b")] [] "https://b" (by omega)
      (by decide)]
    simpa using ih (k + 1) ⟨"https://b", s.data, injectCT s.headers, s.method, 3, 0, false⟩

/-- Claim C9: redirect following has no hop ceiling — against a transport
that redirects on every dispatch, `make_request` diverges at every fuel
bound, transmitting one request per unit of fuel; so the source, which has
no such bound, never terminates on this transport behavior. -/
theorem claim9_unbounded_redirects (fuel n : Nat) (ssl : Bool) :
    (make_request (fun _ => .resp 302 [("Location", "https://b")] []) fuel "https://a"
        none none none n ssl).result = .diverge ∧
    (make_request (fun _ => .resp 302 [("Location", "https://b")] []) fuel "https://a"
        none none none n ssl).sends.length = fuel := by
  unfold make_request
  exact run_redirect_forever fuel 0 _

/-- Counterexample to C1 as stated: a redirect hop of an original call
with retry budget 5 and SSL compatibility mode on is re-dispatched with
budget 3 and SSL compatibility off — the recursive call at lines 146-151
omits `num_retries` and `ssl_compat_mode`, so the hop takes the defaults
instead of keeping the original values. -/
theorem claim1_counterexample :
    ((make_request
        (fun j => if j = 0 then .resp 302 [("Location", "https://y")] []
          else .resp 200 [] []) 2 "https://x" none none none 5 true).sends.map
      (fun s => (s.num_retries, s.ssl_compat_mode)) = [(5, true), (3, false)]) ∧
    ¬ ((make_request
        (fun j => if j = 0 then .resp 302 [("Location", "https://y")] []
          else .resp 200 [] []) 2 "https://x" none none none 5 true).sends.map
      (fun s => (s.num_retries, s.ssl_compat_mode)) = [(5, true), (5, true)]) := by
  decide

/-- Claim C1 (amended): across every redirect hop the re-dispatched
request is the previous one with only the url replaced by the `Location`
value — body, method and the headers mapping are preserved unchanged — but
the hop is dispatched with the defaulted retry budget 3 and SSL
compatibility mode off (the recursive call at lines 146-151 passes neither
argument), not with the original call's values. -/
theorem claim1_redirect_frame (t : Transport) (fuel : Nat) (url : String)
    (data : Option Bytes) (headers0 : Option Headers) (method : Option String)
    (n : Nat) (ssl : Bool) (i st : Nat) (hs2 : Headers) (bd : Bytes) (loc : String)
    (ht : t i = .resp st hs2 bd) (h3l : 300 ≤ st) (h3u : st < 400)
    (hloc : hdrGet hs2 "Location" = some loc)
    (hlen : i + 1 < (make_request t fuel url data headers0 method n ssl).sends.length) :
    ∃ prev,
      (make_request t fuel url data headers0 method n ssl).sends[i]? = some prev ∧
      (make_request t fuel url data headers0 method n ssl).sends[i + 1]? =
        some ⟨loc, prev.data, prev.headers, prev.method, 3, false⟩ := by
  unfold make_request at hlen ⊢
  have hct : hdrHasKey (initState url data headers0 method n ssl).headers
      "Content-Type" = true := hdrHasKey_injectCT _
  exact run_redirect_hop t fuel 0 _ i st hs2 bd loc hct (by simpa using ht) h3l h3u
    hloc hlen

/-- Witness for C1 (amended): one 302 hop; the second transmitted request
keeps body, method and headers, changes the url to the `Location` value,
and carries budget 3 and SSL mode off. -/
theorem claim1_witness :
    ((fun j => if j = 0 then RawOutcome.resp 302 [("Location", "https://y")] []
        else RawOutcome.resp 200 [] []) 0 =
      RawOutcome.resp 302 [("Location", "https://y")] []) ∧
    300 ≤ 302 ∧ 302 < 400 ∧
    hdrGet [("Location", "https://y")] "Location" = some "https://y" ∧
    0 + 1 < (make_request
      (fun j => if j = 0 then .resp 302 [("Location", "https://y")] []
        else .resp 200 [] []) 2 "https://x" none none none 5 true).sends.length ∧
    ∃ prev,
      (make_request
        (fun j => if j = 0 then .resp 302 [("Location", "https://y")] []
          else .resp 200 [] []) 2 "https://x" none none none 5 true).sends[0]? =
        some prev ∧
      (make_request
        (fun j => if j = 0 then .resp 302 [("Location", "https://y")] []
          else .resp 200 [] []) 2 "https://x" none none none 5 true).sends[0 + 1]? =
        some ⟨"https://y", prev.data, prev.headers, prev.method, 3, false⟩ := by
  refine ⟨by decide, by decide, by decide, by decide, by decide, ?_⟩
  exact claim1_redirect_frame
    (fun j => if j = 0 then .resp 302 [("Location", "https://y")] []
      else .resp 200 [] []) 2 "https://x" none none none 5 true 0 302
    [("Location", "https://y")] [] "https://y" rfl (by decide) (by decide) (by decide)
    (by decide)

/-- Counterexample to C4 as stated: a 3xx response object with no
`Location` key crashes the run with Python `KeyError`
(`response.headers["Location"]`, line 147), not with a raised `HttpError`
of any classification. -/
theorem claim4_counterexample :
    (make_request (fun _ => .resp 302 [] [2]) 1 "https://x" none none none 3
        false).result = .keyError "Location" ∧
    (make_request (fun _ => .resp 302 [] [2]) 1 "https://x" none none none 3
        false).result.isRaised = false := by
  decide

/-- Claim C4 (amended): a 3xx response object whose headers lack a
`Location` entry crashes the call with an uncaught Python `KeyError`
(line 147) rather than any classified `HttpError`; a 3xx delivered as an
`HTTPError` exception instead falls into the catch-all of lines 135-142
and raises the unknown-error `HttpError`. -/
theorem claim4_missing_location (t : Transport) (url : String) (data : Option Bytes)
    (headers0 : Option Headers) (method : Option String) (n : Nat) (ssl : Bool)
    (fuel : Nat) (hfuel : 1 ≤ fuel) :
    (∀ st hs bd, t 0 = .resp st hs bd → 300 ≤ st → st < 400 →
      hdrGet hs "Location" = none →
      (make_request t fuel url data headers0 method n ssl).result =
        .keyError "Location" ∧
      (make_request t fuel url data headers0 method n ssl).result.isRaised = false) ∧
    (∀ st bd es, t 0 = .herr (some st) bd es → 300 ≤ st → st < 400 →
      (make_request t fuel url data headers0 method n ssl).result =
        .raised ⟨.unknownError, "Unknown HTTP Error " ++ toString st, some st, bd⟩) := by
  obtain ⟨f, rfl⟩ : ∃ f, fuel = f + 1 := ⟨fuel - 1, by omega⟩
  constructor
  · intro st hs bd ht h3l h3u hloc
    unfold make_request
    rw [run, ht, step_no_location st _ hs bd ⟨h3l, h3u⟩ hloc]
    exact ⟨rfl, rfl⟩
  · intro st bd es ht h3l h3u
    unfold make_request
    rw [run, ht, step_unknown_status st _ bd es (by omega) (by omega)]

/-- Witness for C4 (amended): a 302 whose headers hold no `Location` key
ends in `KeyError "Location"`, not in a raised `HttpError`. -/
theorem claim4_witness :
    1 ≤ 1 ∧
    ((make_request (fun _ => .resp 302 [("X", "y")] []) 1 "https://x" none none none 3
        false).result = .keyError "Location" ∧
     (make_request (fun _ => .resp 302 [("X", "y")] []) 1 "https://x" none none none 3
        false).result.isRaised = false) := by
  refine ⟨by decide, ?_⟩
  exact (claim4_missing_location (fun _ => .resp 302 [("X", "y")] []) "https://x" none
    none none 3 false 1 (by decide)).1 302 [("X", "y")] [] rfl (by decide) (by decide)
    (by decide)

/-- Counterexample to C5 as stated: a response object with status 100 is
returned as a success by line 152 — the only status test on the response
path is the [300,400) redirect check — so `make_request` can return an
`HttpResponse` whose status is not in [200,299]. -/
theorem claim5_counterexample :
    (make_request (fun _ => .resp 100 [] [1]) 1 "https://x" none none none 3
        false).result = .ok ⟨100, [], [1]⟩ ∧
    ¬ (200 ≤ 100 ∧ 100 < 300) := by
  decide

/-- Claim C5 (amended): an `HTTPError` whose status is outside the
classifier's taxonomy (not 429/5xx, not 4xx) raises the catch-all
unknown-error `HttpError` carrying the raw status (lines 135-142); but a
response object is only tested against [300,400): any other status —
1xx and out-of-range codes included — is returned as a success verbatim
(line 152), so returned responses are not confined to [200,299]. -/
theorem claim5_out_of_taxonomy (t : Transport) (url : String) (data : Option Bytes)
    (headers0 : Option Headers) (method : Option String) (n : Nat) (ssl : Bool)
    (fuel : Nat) (hfuel : 1 ≤ fuel) :
    (∀ st bd es, t 0 = .herr (some st) bd es →
      ¬(st = 429 ∨ (500 ≤ st ∧ st < 600)) → ¬(400 ≤ st ∧ st < 500) →
      (make_request t fuel url data headers0 method n ssl).result =
        .raised ⟨.unknownError, "Unknown HTTP Error " ++ toString st, some st, bd⟩) ∧
    (∀ st hs bd, t 0 = .resp st hs bd → ¬(300 ≤ st ∧ st < 400) →
      (make_request t fuel url data headers0 method n ssl).result = .ok ⟨st, hs, bd⟩) := by
  obtain ⟨f, rfl⟩ : ∃ f, fuel = f + 1 := ⟨fuel - 1, by omega⟩
  constructor
  · intro st bd es ht hst h4
    unfold make_request
    rw [run, ht, step_unknown_status st _ bd es hst h4]
  · intro st hs bd ht h3
    unfold make_request
    rw [run, ht, step_return st _ hs bd h3]

/-- Witness for C5 (amended): a 100 delivered as an `HTTPError` raises the
unknown-error `HttpError` carrying 100; a 100 delivered as a response
object is returned as a success. -/
theorem claim5_witness :
    1 ≤ 1 ∧
    (make_request (fun _ => .herr (some 100) [4] "w") 1 "https://x" none none none 3
        false).result =
      .raised ⟨.unknownError, "Unknown HTTP Error " ++ toString 100, some 100, [4]⟩ ∧
    (make_request (fun _ => .resp 100 [("a", "b")] [4]) 1 "https://x" none none none 3
        false).result = .ok ⟨100, [("a", "b")], [4]⟩ := by
  refine ⟨by decide, ?_, ?_⟩
  · exact (claim5_out_of_taxonomy (fun _ => .herr (some 100) [4] "w") "https://x" none
      none none 3 false 1 (by decide)).1 100 [4] "w" rfl (by decide) (by decide)
  · exact (claim5_out_of_taxonomy (fun _ => .resp 100 [("a", "b")] [4]) "https://x" none
      none none 3 false 1 (by decide)).2 100 [("a", "b")] [4] rfl (by decide)

/-- Looking a key up in a mapping that lacked it before the pair was
appended yields the appended value. -/
theorem hdrGet_append_absent (h : Headers) (k v : String)
    (habs : hdrHasKey h k = false) :
    hdrGet (h ++ [(k, v)]) k = some v := by
  unfold hdrGet
  have hnone : h.find? (fun p => p.1 == k) = none := by
    rw [List.find?_eq_none]
    intro a ha hpa
    have hk : hdrHasKey h k = true := by
      unfold hdrHasKey
      rw [List.any_eq_true]
      exact ⟨a, ha, hpa⟩
    rw [hk] at habs
    cases habs
  rw [List.find?_append, hnone]
  simp

/-- Counterexample to C8 as stated: a caller-supplied Content-Type under
the case-variant key "content-type" does not suppress the default — the
exact-key test of line 70 misses it, so the transmitted mapping is not the
caller's mapping unchanged but carries the injected default as well. -/
theorem claim8_counterexample :
    ((make_request (fun _ => .resp 200 [] []) 1 "https://x" none
        (some [("content-type", "text/plain")]) none 3 false).sends.map
      (fun s => s.headers) =
      [[("content-type", "text/plain"),
        ("Content-Type", "application/json; charset=utf8")]]) ∧
    ¬ ((make_request (fun _ => .resp 200 [] []) 1 "https://x" none
        (some [("content-type", "text/plain")]) none 3 false).sends.map
      (fun s => s.headers) = [[("content-type", "text/plain")]]) := by
  decide

/-- Claim C8 (amended): the default check is the exact-key test
`"Content-Type" not in headers` (line 70).  When the exact key is absent,
the transmitted mapping is the caller's with the pair
`("Content-Type", "application/json; charset=utf8")` appended, and a
`Content-Type` lookup on it yields the default; when the exact key is
present, the mapping is transmitted unchanged.  A differently-cased key
does not suppress the injection. -/
theorem claim8_exact_key_default (t : Transport) (fuel : Nat) (url : String)
    (data : Option Bytes) (method : Option String) (n : Nat) (ssl : Bool) (h : Headers)
    (hfuel : 1 ≤ fuel) :
    (hdrHasKey h "Content-Type" = false →
      (make_request t fuel url data (some h) method n ssl).sends[0]? =
        some ⟨url, data, h ++ [("Content-Type", "application/json; charset=utf8")],
          method, n, ssl⟩ ∧
      hdrGet (h ++ [("Content-Type", "application/json; charset=utf8")])
        "Content-Type" = some "application/json; charset=utf8") ∧
    (hdrHasKey h "Content-Type" = true →
      (make_request t fuel url data (some h) method n ssl).sends[0]? =
        some ⟨url, data, h, method, n, ssl⟩) := by
  constructor
  · intro habs
    constructor
    · unfold make_request
      rw [run_sends_zero t 0 _ hfuel]
      have hinj : injectCT h =
          h ++ [("Content-Type", "application/json; charset=utf8")] := by
        simp [injectCT, habs]
      simp [specOf, initState, hinj]
    · exact hdrGet_append_absent h "Content-Type" _ habs
  · intro hpres
    unfold make_request
    rw [run_sends_zero t 0 _ hfuel]
    simp [specOf, initState, injectCT_of_has hpres]

/-- Witness for C8 (amended): with caller headers
`{"content-type": "text/plain"}` the exact key is absent, so the
transmitted mapping carries the appended default and a `Content-Type`
lookup yields it. -/
theorem claim8_witness :
    1 ≤ 1 ∧ hdrHasKey [("content-type", "text/plain")] "Content-Type" = false ∧
    ((make_request (fun _ => .resp 204 [] []) 1 "https://x" none
        (some [("content-type", "text/plain")]) none 3 false).sends[0]? =
      some ⟨"https://x", none,
        [("content-type", "text/plain"),
         ("Content-Type", "application/json; charset=utf8")], none, 3, false⟩ ∧
     hdrGet [("content-type", "text/plain"),
         ("Content-Type", "application/json; charset=utf8")] "Content-Type" =
       some "application/json; charset=utf8") := by
  refine ⟨by decide, by decide, ?_⟩
  exact (claim8_exact_key_default (fun _ => .resp 204 [] []) 1 "https://x" none none 3
    false [("content-type", "text/plain")] (by decide)).1 (by decide)

/-- Claim C10: when the caller's mapping lacks the exact key
`"Content-Type"` (even when a case-variant key such as `"content-type"` is
present, as the witness shows), `make_request` appends the default pair to
that shared mapping — a caller-visible change, reported as the run's final
headers value — and every dispatch of every redirect hop transmits that
same mutated mapping. -/
theorem claim10_header_mutation (t : Transport) (fuel : Nat) (url : String)
    (data : Option Bytes) (method : Option String) (n : Nat) (ssl : Bool) (h : Headers)
    (habs : hdrHasKey h "Content-Type" = false) :
    (make_request t fuel url data (some h) method n ssl).finalHeaders =
      h ++ [("Content-Type", "application/json; charset=utf8")] ∧
    (make_request t fuel url data (some h) method n ssl).finalHeaders ≠ h ∧
    (∀ sr ∈ (make_request t fuel url data (some h) method n ssl).sends,
      sr.headers = (make_request t fuel url data (some h) method n ssl).finalHeaders) := by
  have hinj : injectCT h = h ++ [("Content-Type", "application/json; charset=utf8")] := by
    simp [injectCT, habs]
  have hct0 : hdrHasKey (initState url data (some h) method n ssl).headers
      "Content-Type" = true := hdrHasKey_injectCT _
  have hrun := run_headers_inv t fuel 0 (initState url data (some h) method n ssl) hct0
  have hih : (initState url data (some h) method n ssl).headers = injectCT h := rfl
  unfold make_request
  refine ⟨by rw [hrun.1, hih, hinj], ?_, ?_⟩
  · rw [hrun.1, hih, hinj]
    intro heq
    have hlen := congrArg List.length heq
    simp at hlen
  · intro sr hmem
    rw [hrun.2 sr hmem, hrun.1]

/-- Witness for C10: caller mapping `{"content-type": "text/plain"}`
(exact key absent, case-variant present), one 302 hop then a 200: the
final mapping gains the default pair, differs from the caller's original,
and both transmitted requests carry it. -/
theorem claim10_witness :
    hdrHasKey [("content-type", "text/plain")] "Content-Type" = false ∧
    ((make_request
        (fun j => if j = 0 then .resp 302 [("Location", "https://y")] []
          else .resp 200 [] []) 2 "https://x" none
        (some [("content-type", "text/plain")]) none 3 false).finalHeaders =
      [("content-type", "text/plain")] ++
        [("Content-Type", "application/json; charset=utf8")] ∧
     (make_request
        (fun j => if j = 0 then .resp 302 [("Location", "https://y")] []
          else .resp 200 [] []) 2 "https://x" none
        (some [("content-type", "text/plain")]) none 3 false).finalHeaders ≠
      [("content-type", "text/plain")] ∧
     (∀ sr ∈ (make_request
        (fun j => if j = 0 then .resp 302 [("Location", "https://y")] []
          else .resp 200 [] []) 2 "https://x" none
        (some [("content-type", "text/plain")]) none 3 false).sends,
       sr.headers = (make_request
        (fun j => if j = 0 then .resp 302 [("Location", "https://y")] []
          else .resp 200 [] []) 2 "https://x" none
        (some [("content-type", "text/plain")]) none 3 false).finalHeaders)) :=
  ⟨by decide,
   claim10_header_mutation
     (fun j => if j = 0 then .resp 302 [("Location", "https://y")] []
       else .resp 200 [] []) 2 "https://x" none none 3 false
     [("content-type", "text/plain")] (by decide)⟩

end ActionPy
